import Mathlib

/-!
Verification of atom/browser/native_window_views.cc.

The file models, as a shallow embedding, the parts of NativeWindowViews
that carry program logic: the menu-bar autohide state machine driven by
keyboard/mouse/activation events, draggable-region construction and hit
testing, accelerator registration, taskbar-skip error handling, and the
geometry getters/setters, together with the tiny NativeWindowClientView
delegate.  Calls into the views toolkit (Widget, FocusManager, frame
views) are modelled either as explicit state fields, as abstract function
parameters, or as appended call traces, so that each C++ member function
becomes a pure Lean function on an explicit state.
-/

/-! ## Keyboard events (content::NativeWebKeyboardEvent) -/

/-- The blink::WebInputEvent type values used by HandleKeyboardEvent. -/
inductive WebInputEventType where
  | RawKeyDown
  | KeyDown
  | KeyUp
  | Char
deriving DecidableEq, Repr

/-- Modifier bit for an Alt key being held (blink WebInputEvent::Modifiers).
The exact bit values are irrelevant to the logic, which only compares the
whole modifier word for equality; they are modelled as distinct bits. -/
def Modifiers.AltKey : Nat := 4

/-- Modifier bit marking the left-hand variant of a modifier key. -/
def Modifiers.IsLeft : Nat := 64

/-- Modifier bit marking the right-hand variant of a modifier key. -/
def Modifiers.IsRight : Nat := 128

/-- The fields of content::NativeWebKeyboardEvent read by this file. -/
structure NativeWebKeyboardEvent where
  type : WebInputEventType
  windowsKeyCode : Nat
  modifiers : Nat
deriving DecidableEq, Repr

/-- ui::VKEY_MENU, the Windows virtual-key code of the Alt key. -/
def VKEY_MENU : Nat := 18

/-- IsAltKey from native_window_views.cc.  On X11 builds the key codes 164
and 165 (VK_LALT / VK_RALT) are tested; otherwise the code is compared with
ui::VKEY_MENU.  The build platform is passed as the flag useX11. -/
def IsAltKey (useX11 : Bool) (event : NativeWebKeyboardEvent) : Bool :=
  if useX11 then
    event.windowsKeyCode == 164 || event.windowsKeyCode == 165
  else
    event.windowsKeyCode == VKEY_MENU

/-- IsAltModifier from native_window_views.cc: the modifier word is exactly
AltKey, AltKey|IsLeft, or AltKey|IsRight. -/
def IsAltModifier (event : NativeWebKeyboardEvent) : Bool :=
  decide (event.modifiers = Modifiers.AltKey) ||
  decide (event.modifiers = Modifiers.AltKey ||| Modifiers.IsLeft) ||
  decide (event.modifiers = Modifiers.AltKey ||| Modifiers.IsRight)

/-! ## The menu-bar state machine

State fields of NativeWindowViews that the menu-bar handling reads and
writes.  menu_bar_present models (menu_bar_ != nullptr); menu_bar_attached
models whether the menu bar view is currently a child of the contents view
(the contents view always has the web view as a child, so child_count() is
1 + the attachment bit). -/

structure MenuBarState where
  has_frame : Bool
  menu_bar_autohide : Bool
  menu_bar_present : Bool
  menu_bar_attached : Bool
  menu_bar_visible : Bool
  menu_bar_alt_pressed : Bool
deriving DecidableEq, Repr

/-- child_count() of the contents view: the web view plus, when attached,
the menu bar view. -/
def MenuBarState.child_count (s : MenuBarState) : Nat :=
  1 + (if s.menu_bar_attached then 1 else 0)

/-- NativeWindowViews::SetMenuBarVisibility: returns early when menu_bar_
is null; otherwise records the flag and adds/removes the menu bar child.
(The DCHECKs are modelled separately by SetMenuBarVisibilityAsserts.) -/
def SetMenuBarVisibility (s : MenuBarState) (visible : Bool) : MenuBarState :=
  if s.menu_bar_present = false then s
  else { s with menu_bar_visible := visible, menu_bar_attached := visible }

/-- The DCHECKs of NativeWindowViews::SetMenuBarVisibility, evaluated at
the state in which the function runs: once past the null check, showing
requires child_count() == 1 and hiding requires child_count() == 2. -/
def SetMenuBarVisibilityAsserts (s : MenuBarState) (visible : Bool) : Bool :=
  if s.menu_bar_present = false then true
  else if visible then s.child_count == 1 else s.child_count == 2

/-- NativeWindowViews::HandleKeyboardEvent, restricted to the state fields
it touches.  The call into keyboard_event_handler_ is external and does not
affect these fields. -/
def HandleKeyboardEvent (useX11 : Bool) (s : MenuBarState)
    (event : NativeWebKeyboardEvent) : MenuBarState :=
  if s.menu_bar_autohide = false then s
  else if event.type = WebInputEventType.RawKeyDown ∧ IsAltKey useX11 event = true ∧
          IsAltModifier event = true then
    { s with menu_bar_alt_pressed := true }
  else if event.type = WebInputEventType.KeyUp ∧ IsAltKey useX11 event = true ∧
          event.modifiers = 0 ∧ s.menu_bar_alt_pressed = true then
    SetMenuBarVisibility { s with menu_bar_alt_pressed := false } (!s.menu_bar_visible)
  else
    { s with menu_bar_alt_pressed := false }

/-- NativeWindowViews::HandleMouseDown: hide the menu bar when the web view
is clicked while it is auto-hidden and visible. -/
def HandleMouseDown (s : MenuBarState) : MenuBarState :=
  if s.menu_bar_autohide = true ∧ s.menu_bar_visible = true then
    SetMenuBarVisibility s false
  else s

/-- NativeWindowViews::OnWidgetActivationChanged, restricted to the
menu-bar fields: the menu bar is hidden when the window loses activation
while auto-hidden and visible.  Notifications and web-contents focusing are
external effects. -/
def OnWidgetActivationChanged (s : MenuBarState) (active : Bool) : MenuBarState :=
  if active = false ∧ s.menu_bar_autohide = true ∧ s.menu_bar_visible = true then
    SetMenuBarVisibility s false
  else s

/-- NativeWindowViews::SetMenu, restricted to the menu-bar fields.  The
flag use_global_menu_bar stands for the X11 global-menu path being taken
(global_menu_bar_ set and its server started), in which case the function
returns before touching the menu bar; on Windows it is always false.
RegisterAccelerators, MenuBar::SetMenu, SetContentSize and Layout do not
touch these fields. -/
def SetMenu (s : MenuBarState) (use_global_menu_bar : Bool) : MenuBarState :=
  if use_global_menu_bar = true then s
  else if s.has_frame = false then s
  else if s.menu_bar_present = false then
    let s1 := { s with menu_bar_present := true }
    if s.menu_bar_autohide = false then SetMenuBarVisibility s1 true else s1
  else s

/-- The constructor's initialisation of the menu-bar fields: the flags
menu_bar_autohide_ (from the options) and has_frame_ are set, menu_bar_ is
null, and only the web view is a child. -/
def NativeWindowViews.init (has_frame menu_bar_autohide : Bool) : MenuBarState :=
  { has_frame := has_frame
    menu_bar_autohide := menu_bar_autohide
    menu_bar_present := false
    menu_bar_attached := false
    menu_bar_visible := false
    menu_bar_alt_pressed := false }

/-! ## C1: the autohide keyboard handler -/

/-- C1 (counterexample).  The claim states that, with autohide enabled, a
KeyUp of an Alt key with no modifiers while menu_bar_alt_pressed_ is true
"clears the flag and toggles menu-bar visibility".  In the state where no
menu bar object exists (menu_bar_ is null, as before any SetMenu call),
SetMenuBarVisibility returns early, so the visibility flag is NOT toggled:
here a single-Alt KeyUp with the flag set leaves menu_bar_visible_
unchanged. -/
theorem HandleKeyboardEvent_claim_counterexample :
    ((⟨WebInputEventType.KeyUp, 18, 0⟩ : NativeWebKeyboardEvent).type =
        WebInputEventType.KeyUp) ∧
    IsAltKey false ⟨WebInputEventType.KeyUp, 18, 0⟩ = true ∧
    ((⟨WebInputEventType.KeyUp, 18, 0⟩ : NativeWebKeyboardEvent).modifiers = 0) ∧
    ((⟨true, true, false, false, false, true⟩ : MenuBarState).menu_bar_autohide = true) ∧
    ((⟨true, true, false, false, false, true⟩ : MenuBarState).menu_bar_alt_pressed = true) ∧
    (HandleKeyboardEvent false ⟨true, true, false, false, false, true⟩
        ⟨WebInputEventType.KeyUp, 18, 0⟩).menu_bar_visible
      = (⟨true, true, false, false, false, true⟩ : MenuBarState).menu_bar_visible := by
  decide

/-- C1 (amended).  When autohide is enabled: a RawKeyDown of an Alt key
whose modifiers are exactly the Alt modifier (possibly with IsLeft or
IsRight) sets menu_bar_alt_pressed_ to true and leaves visibility
unchanged; a KeyUp of an Alt key with no modifiers while
menu_bar_alt_pressed_ is true clears the flag and, provided a menu bar
object exists, toggles menu-bar visibility (if no menu bar exists the
visibility is unchanged); every other key event clears the flag and leaves
visibility unchanged.  When autohide is disabled the handler changes
neither the flag nor the visibility. -/
theorem HandleKeyboardEvent_autohide_spec (useX11 : Bool) (s : MenuBarState)
    (event : NativeWebKeyboardEvent) :
    (s.menu_bar_autohide = false →
      (HandleKeyboardEvent useX11 s event).menu_bar_alt_pressed = s.menu_bar_alt_pressed ∧
      (HandleKeyboardEvent useX11 s event).menu_bar_visible = s.menu_bar_visible) ∧
    (s.menu_bar_autohide = true →
      (event.type = WebInputEventType.RawKeyDown → IsAltKey useX11 event = true →
          IsAltModifier event = true →
        (HandleKeyboardEvent useX11 s event).menu_bar_alt_pressed = true ∧
        (HandleKeyboardEvent useX11 s event).menu_bar_visible = s.menu_bar_visible) ∧
      (event.type = WebInputEventType.KeyUp → IsAltKey useX11 event = true →
          event.modifiers = 0 → s.menu_bar_alt_pressed = true →
        (HandleKeyboardEvent useX11 s event).menu_bar_alt_pressed = false ∧
        (s.menu_bar_present = true →
          (HandleKeyboardEvent useX11 s event).menu_bar_visible = !s.menu_bar_visible) ∧
        (s.menu_bar_present = false →
          (HandleKeyboardEvent useX11 s event).menu_bar_visible = s.menu_bar_visible)) ∧
      (¬(event.type = WebInputEventType.RawKeyDown ∧ IsAltKey useX11 event = true ∧
            IsAltModifier event = true) →
       ¬(event.type = WebInputEventType.KeyUp ∧ IsAltKey useX11 event = true ∧
            event.modifiers = 0 ∧ s.menu_bar_alt_pressed = true) →
        (HandleKeyboardEvent useX11 s event).menu_bar_alt_pressed = false ∧
        (HandleKeyboardEvent useX11 s event).menu_bar_visible = s.menu_bar_visible)) := by
  unfold HandleKeyboardEvent SetMenuBarVisibility
  split_ifs <;> simp_all

/-- C1 (witness): the amended theorem applied at a concrete state with a
menu bar present and the alt flag set, on a single-Alt KeyUp. -/
theorem HandleKeyboardEvent_autohide_spec_witness :
    (HandleKeyboardEvent false ⟨true, true, true, true, true, true⟩
        ⟨WebInputEventType.KeyUp, 18, 0⟩).menu_bar_alt_pressed = false ∧
    (HandleKeyboardEvent false ⟨true, true, true, true, true, true⟩
        ⟨WebInputEventType.KeyUp, 18, 0⟩).menu_bar_visible = false := by
  have h := HandleKeyboardEvent_autohide_spec false ⟨true, true, true, true, true, true⟩
      ⟨WebInputEventType.KeyUp, 18, 0⟩
  have h2 := (h.2 rfl).2.1 rfl rfl rfl rfl
  exact ⟨h2.1, h2.2.1 rfl⟩

/-! ## C8: the SetMenuBarVisibility assertions

The DCHECK conditions of every call site of SetMenuBarVisibility in the
file, evaluated at the state in which that call would run. -/

/-- The assertion executed by HandleMouseDown's call site. -/
def HandleMouseDownAsserts (s : MenuBarState) : Bool :=
  if s.menu_bar_autohide = true ∧ s.menu_bar_visible = true then
    SetMenuBarVisibilityAsserts s false
  else true

/-- The assertion executed by OnWidgetActivationChanged's call site. -/
def OnWidgetActivationChangedAsserts (s : MenuBarState) (active : Bool) : Bool :=
  if active = false ∧ s.menu_bar_autohide = true ∧ s.menu_bar_visible = true then
    SetMenuBarVisibilityAsserts s false
  else true

/-- The assertion executed by HandleKeyboardEvent's call site. -/
def HandleKeyboardEventAsserts (useX11 : Bool) (s : MenuBarState)
    (event : NativeWebKeyboardEvent) : Bool :=
  if s.menu_bar_autohide = false then true
  else if event.type = WebInputEventType.RawKeyDown ∧ IsAltKey useX11 event = true ∧
          IsAltModifier event = true then true
  else if event.type = WebInputEventType.KeyUp ∧ IsAltKey useX11 event = true ∧
          event.modifiers = 0 ∧ s.menu_bar_alt_pressed = true then
    SetMenuBarVisibilityAsserts { s with menu_bar_alt_pressed := false } (!s.menu_bar_visible)
  else true

/-- The assertion executed by SetMenu's call site (reached only when the
menu bar object has just been created). -/
def SetMenuAsserts (s : MenuBarState) (use_global_menu_bar : Bool) : Bool :=
  if use_global_menu_bar = true then true
  else if s.has_frame = false then true
  else if s.menu_bar_present = false then
    (if s.menu_bar_autohide = false then
      SetMenuBarVisibilityAsserts { s with menu_bar_present := true } true
    else true)
  else true

/-- One execution of any of the NativeWindowViews entry points that touch
the menu-bar state. -/
inductive Step : MenuBarState → MenuBarState → Prop where
  | mouse_down (s : MenuBarState) : Step s (HandleMouseDown s)
  | activation (s : MenuBarState) (active : Bool) :
      Step s (OnWidgetActivationChanged s active)
  | keyboard (s : MenuBarState) (useX11 : Bool) (event : NativeWebKeyboardEvent) :
      Step s (HandleKeyboardEvent useX11 s event)
  | menu (s : MenuBarState) (use_global_menu_bar : Bool) :
      Step s (SetMenu s use_global_menu_bar)

/-- The menu-bar states reachable from the constructor through the entry
points of the file. -/
inductive Reachable : MenuBarState → Prop where
  | init (has_frame menu_bar_autohide : Bool) :
      Reachable (NativeWindowViews.init has_frame menu_bar_autohide)
  | step {s t : MenuBarState} : Reachable s → Step s t → Reachable t

/-- The menu-bar invariant: the visibility flag records exactly whether the
menu bar view is attached, and a view can only be attached when the menu
bar object exists. -/
def MenuBarInv (s : MenuBarState) : Prop :=
  s.menu_bar_visible = s.menu_bar_attached ∧
  (s.menu_bar_attached = true → s.menu_bar_present = true)

theorem setMenuBarVisibility_inv (s : MenuBarState) (visible : Bool)
    (h : MenuBarInv s) : MenuBarInv (SetMenuBarVisibility s visible) := by
  unfold SetMenuBarVisibility
  split_ifs <;> simp_all [MenuBarInv]

theorem step_inv {s t : MenuBarState} (h : MenuBarInv s) (hs : Step s t) :
    MenuBarInv t := by
  cases hs with
  | mouse_down =>
      unfold HandleMouseDown
      split_ifs with h1
      · exact setMenuBarVisibility_inv _ false h
      · exact h
  | activation active =>
      unfold OnWidgetActivationChanged
      split_ifs with h1
      · exact setMenuBarVisibility_inv _ false h
      · exact h
  | keyboard useX11 event =>
      unfold HandleKeyboardEvent
      split_ifs with h1 h2 h3
      · exact h
      · obtain ⟨hv, hp⟩ := h
        exact ⟨hv, hp⟩
      · refine setMenuBarVisibility_inv _ _ ?_
        obtain ⟨hv, hp⟩ := h
        exact ⟨hv, hp⟩
      · obtain ⟨hv, hp⟩ := h
        exact ⟨hv, hp⟩
  | menu use_global_menu_bar =>
      unfold SetMenu
      split_ifs with h1 h2 h3 h4
      · exact h
      · exact h
      · refine setMenuBarVisibility_inv _ _ ?_
        obtain ⟨hv, hp⟩ := h
        exact ⟨hv, fun _ => rfl⟩
      · obtain ⟨hv, hp⟩ := h
        exact ⟨hv, fun _ => rfl⟩
      · exact h

theorem reachable_inv {s : MenuBarState} (h : Reachable s) : MenuBarInv s := by
  induction h with
  | init has_frame menu_bar_autohide =>
      simp [MenuBarInv, NativeWindowViews.init]
  | step _ hs ih => exact step_inv ih hs

/-- C8.  In every state reachable through the file's entry points,
menu_bar_visible_ is true exactly when the menu bar view is attached as a
child of the contents view, and every call of SetMenuBarVisibility made by
any next entry point passes its DCHECKs: with a menu bar present, the
contents view has exactly one child when the menu bar is being shown and
exactly two when it is being hidden. -/
theorem SetMenuBarVisibility_invariant (s : MenuBarState) (h : Reachable s) :
    s.menu_bar_visible = s.menu_bar_attached ∧
    HandleMouseDownAsserts s = true ∧
    (∀ active : Bool, OnWidgetActivationChangedAsserts s active = true) ∧
    (∀ (useX11 : Bool) (event : NativeWebKeyboardEvent),
        HandleKeyboardEventAsserts useX11 s event = true) ∧
    (∀ use_global_menu_bar : Bool, SetMenuAsserts s use_global_menu_bar = true) := by
  obtain ⟨hv, hp⟩ := reachable_inv h
  refine ⟨hv, ?_, ?_, ?_, ?_⟩
  · unfold HandleMouseDownAsserts SetMenuBarVisibilityAsserts MenuBarState.child_count
    split_ifs <;> simp_all
  · intro active
    unfold OnWidgetActivationChangedAsserts SetMenuBarVisibilityAsserts
      MenuBarState.child_count
    split_ifs <;> simp_all
  · intro useX11 event
    unfold HandleKeyboardEventAsserts SetMenuBarVisibilityAsserts MenuBarState.child_count
    split_ifs <;> simp_all
  · intro use_global_menu_bar
    unfold SetMenuAsserts SetMenuBarVisibilityAsserts MenuBarState.child_count
    split_ifs <;> simp_all

/-- C8 (witness): the invariant theorem applied at the freshly constructed
window. -/
theorem SetMenuBarVisibility_invariant_witness :
    (NativeWindowViews.init true true).menu_bar_visible =
      (NativeWindowViews.init true true).menu_bar_attached ∧
    HandleMouseDownAsserts (NativeWindowViews.init true true) = true := by
  have h := SetMenuBarVisibility_invariant (NativeWindowViews.init true true)
      (Reachable.init true true)
  exact ⟨h.1, h.2.1⟩

/-! ## Geometry primitives (gfx::Rect, gfx::Size, gfx::Point) -/

/-- gfx::Size. -/
structure GSize where
  width : Int
  height : Int
deriving DecidableEq, Repr

/-- gfx::Point. -/
structure GPoint where
  x : Int
  y : Int
deriving DecidableEq, Repr

/-- gfx::Rect: an origin and a size. -/
structure GRect where
  x : Int
  y : Int
  width : Int
  height : Int
deriving DecidableEq, Repr

/-- gfx::Rect::right(). -/
def GRect.right (r : GRect) : Int := r.x + r.width

/-- gfx::Rect::bottom(). -/
def GRect.bottom (r : GRect) : Int := r.y + r.height

/-- gfx::Rect::size(). -/
def GRect.size (r : GRect) : GSize := ⟨r.width, r.height⟩

/-- gfx::Rect::origin(). -/
def GRect.origin (r : GRect) : GPoint := ⟨r.x, r.y⟩

/-! ## C2/C3: draggable regions -/

/-- DraggableRegion from atom/common/draggable_region.h: a draggable flag
and a bounding rectangle. -/
structure DraggableRegion where
  draggable : Bool
  bounds : GRect
deriving DecidableEq, Repr

/-- An SkRegion, modelled extensionally by its point-membership function
(SkRegion::contains). -/
abbrev SkRegion := Int → Int → Bool

/-- The two SkRegion::Op values used by UpdateDraggableRegions. -/
inductive SkRegionOp where
  | union
  | difference
deriving DecidableEq, Repr

/-- Membership of a point in the SkIRect spanning columns [l, r) and rows
[t, b). -/
def SkIRect.containsPoint (l t r b px py : Int) : Bool :=
  decide (l ≤ px) && decide (px < r) && decide (t ≤ py) && decide (py < b)

/-- SkRegion::op with a rectangle: union adds the rectangle's points,
difference removes them. -/
def SkRegion.op (reg : SkRegion) (l t r b : Int) (op : SkRegionOp) : SkRegion :=
  match op with
  | SkRegionOp.union => fun px py => reg px py || SkIRect.containsPoint l t r b px py
  | SkRegionOp.difference => fun px py => reg px py && !(SkIRect.containsPoint l t r b px py)

/-- The default-constructed (empty) SkRegion. -/
def SkRegion.empty : SkRegion := fun _ _ => false

/-- The loop body of NativeWindowViews::UpdateDraggableRegions: starting
from the empty region, apply region->op(bounds.x, bounds.y, bounds.right,
bounds.bottom, draggable ? union : difference) for each entry in order. -/
def buildDraggableRegion (regions : List DraggableRegion) : SkRegion :=
  regions.foldl
    (fun a region =>
      SkRegion.op a region.bounds.x region.bounds.y region.bounds.right region.bounds.bottom
        (if region.draggable then SkRegionOp.union else SkRegionOp.difference))
    SkRegion.empty

/-- The fields of NativeWindowViews read by UpdateDraggableRegions and
ShouldDescendIntoChildForEventHandling. -/
structure RegionState where
  has_frame : Bool
  resizable : Bool
  draggable_region : Option SkRegion

/-- NativeWindowViews::UpdateDraggableRegions. -/
def UpdateDraggableRegions (s : RegionState) (regions : List DraggableRegion) :
    RegionState :=
  if s.has_frame = true then s
  else { s with draggable_region := some (buildDraggableRegion regions) }

/-- The rectangle's points as a set, following the specification's reading
of a draggable-region rectangle. -/
def specRectSet (r : GRect) : Set (Int × Int) :=
  { p | r.x ≤ p.1 ∧ p.1 < r.x + r.width ∧ r.y ≤ p.2 ∧ p.2 < r.y + r.height }

/-- The draggable region as the claim describes it: built from the empty
region by processing the list in order, taking the union with each
rectangle whose draggable flag is true and the difference with each
rectangle whose flag is false. -/
def specDraggableRegion (regions : List DraggableRegion) : Set (Int × Int) :=
  regions.foldl
    (fun a region =>
      if region.draggable then a ∪ specRectSet region.bounds
      else a \ specRectSet region.bounds)
    ∅

theorem draggableRegion_fold_mem (regions : List DraggableRegion) :
    ∀ (acc : SkRegion) (accS : Set (Int × Int)),
      (∀ px py : Int, acc px py = true ↔ (px, py) ∈ accS) →
      ∀ px py : Int,
        (regions.foldl
            (fun a region =>
              SkRegion.op a region.bounds.x region.bounds.y region.bounds.right
                region.bounds.bottom
                (if region.draggable then SkRegionOp.union else SkRegionOp.difference))
            acc) px py = true ↔
          (px, py) ∈ regions.foldl
            (fun a region =>
              if region.draggable then a ∪ specRectSet region.bounds
              else a \ specRectSet region.bounds)
            accS := by
  induction regions with
  | nil =>
      intro acc accS h px py
      simpa using h px py
  | cons r rest ih =>
      intro acc accS h px py
      simp only [List.foldl_cons]
      by_cases hd : r.draggable = true
      · simp only [hd, if_true]
        refine ih _ _ ?_ px py
        intro qx qy
        simp [SkRegion.op, SkIRect.containsPoint, specRectSet, GRect.right, GRect.bottom,
          h qx qy, Set.mem_union, and_assoc]
      · simp only [hd, if_false]
        refine ih _ _ ?_ px py
        intro qx qy
        simp [SkRegion.op, SkIRect.containsPoint, specRectSet, GRect.right, GRect.bottom,
          h qx qy, Set.mem_diff, and_assoc]
        intro _
        omega

/-- C2.  With a frame, UpdateDraggableRegions leaves the state unchanged;
frameless, it replaces the stored draggable region with one built from the
empty region by processing the list in order, and that region contains
exactly the points obtained by taking the union with each rectangle whose
draggable flag is true and the difference with each rectangle whose flag is
false. -/
theorem UpdateDraggableRegions_spec (s : RegionState) (regions : List DraggableRegion) :
    (s.has_frame = true → UpdateDraggableRegions s regions = s) ∧
    (s.has_frame = false →
      UpdateDraggableRegions s regions =
        { s with draggable_region := some (buildDraggableRegion regions) } ∧
      ∀ px py : Int,
        buildDraggableRegion regions px py = true ↔
          (px, py) ∈ specDraggableRegion regions) := by
  constructor
  · intro h
    simp [UpdateDraggableRegions, h]
  · intro h
    refine ⟨by simp [UpdateDraggableRegions, h], ?_⟩
    intro px py
    have hbase : ∀ qx qy : Int,
        SkRegion.empty qx qy = true ↔ (qx, qy) ∈ (∅ : Set (Int × Int)) := by
      intro qx qy
      simp [SkRegion.empty]
    exact draggableRegion_fold_mem regions SkRegion.empty ∅ hbase px py

/-- C2 (witness): the frameless case at a two-entry region list, evaluated
at the point (1, 1). -/
theorem UpdateDraggableRegions_spec_witness :
    buildDraggableRegion [⟨true, ⟨0, 0, 10, 10⟩⟩, ⟨false, ⟨2, 2, 3, 3⟩⟩] 1 1 = true ↔
      ((1 : Int), (1 : Int)) ∈
        specDraggableRegion [⟨true, ⟨0, 0, 10, 10⟩⟩, ⟨false, ⟨2, 2, 3, 3⟩⟩] := by
  exact ((UpdateDraggableRegions_spec ⟨false, true, none⟩
      [⟨true, ⟨0, 0, 10, 10⟩⟩, ⟨false, ⟨2, 2, 3, 3⟩⟩]).2 rfl).2 1 1

/-! ## C3: hit testing for event handling -/

/-- The test (draggable_region_ && draggable_region_->contains(x, y)): a
null stored region contains nothing. -/
def regionContainsPoint (reg : Option SkRegion) (location : GPoint) : Bool :=
  match reg with
  | some region => region location.x location.y
  | none => false

/-- ui::HTNOWHERE from ui/base/hit_test.h. -/
def HTNOWHERE : Int := 0

/-- NativeWindowViews::CanResize: returns resizable_. -/
def RegionState.CanResize (s : RegionState) : Bool := s.resizable

/-- NativeWindowViews::ShouldDescendIntoChildForEventHandling.  The
FramelessView::ResizingBorderHitTest call is external to this file and is
passed as the function resizingBorderHitTest. -/
def ShouldDescendIntoChildForEventHandling (s : RegionState)
    (resizingBorderHitTest : GPoint → Int) (location : GPoint) : Bool :=
  if regionContainsPoint s.draggable_region location = true then false
  else if s.has_frame = false ∧ s.CanResize = true then
    decide (resizingBorderHitTest location = HTNOWHERE)
  else true

/-- C3.  The window claims the mouse event (returns false) when a stored
draggable region contains the point; otherwise a frameless resizable window
descends exactly when the resizing-border hit test reports HTNOWHERE, and
in all remaining cases the function returns true. -/
theorem ShouldDescendIntoChildForEventHandling_spec (s : RegionState)
    (resizingBorderHitTest : GPoint → Int) (location : GPoint) :
    (regionContainsPoint s.draggable_region location = true →
      ShouldDescendIntoChildForEventHandling s resizingBorderHitTest location = false) ∧
    (regionContainsPoint s.draggable_region location = false →
      s.has_frame = false → s.CanResize = true →
      (ShouldDescendIntoChildForEventHandling s resizingBorderHitTest location = true ↔
        resizingBorderHitTest location = HTNOWHERE)) ∧
    (regionContainsPoint s.draggable_region location = false →
      ¬(s.has_frame = false ∧ s.CanResize = true) →
      ShouldDescendIntoChildForEventHandling s resizingBorderHitTest location = true) := by
  unfold ShouldDescendIntoChildForEventHandling
  split_ifs with h1 h2 <;> simp_all

/-- C3 (witness): a framed window with no stored region descends into the
child at (5, 5). -/
theorem ShouldDescendIntoChildForEventHandling_spec_witness :
    ShouldDescendIntoChildForEventHandling ⟨true, true, none⟩ (fun _ => 0) ⟨5, 5⟩ = true := by
  exact (ShouldDescendIntoChildForEventHandling_spec ⟨true, true, none⟩
      (fun _ => 0) ⟨5, 5⟩).2.2 rfl (by simp [RegionState.CanResize])

/-! ## C4: accelerator registration -/

/-- ui::AcceleratorManager registration priorities. -/
inductive AcceleratorPriority where
  | normal
  | high
deriving DecidableEq, Repr

/-- One registration held by the focus manager: an accelerator (abstracted
to an identifier), the priority it was registered with, and the identity of
the registering target. -/
structure RegisteredAccelerator where
  accelerator : Nat
  priority : AcceleratorPriority
  target : Nat
deriving DecidableEq, Repr

/-- Modelled from the spec: views::FocusManager::UnregisterAccelerators
(toolkit code, not part of this repository fragment) removes every
registration made by the given target. -/
def FocusManager.UnregisterAccelerators (fm : List RegisteredAccelerator)
    (target : Nat) : List RegisteredAccelerator :=
  fm.filter (fun r => r.target != target)

/-- Modelled from the spec: views::FocusManager::RegisterAccelerator
(toolkit code, not part of this repository fragment) adds a registration
for the given accelerator, priority and target. -/
def FocusManager.RegisterAccelerator (fm : List RegisteredAccelerator)
    (accelerator : Nat) (priority : AcceleratorPriority) (target : Nat) :
    List RegisteredAccelerator :=
  fm ++ [⟨accelerator, priority, target⟩]

/-- NativeWindowViews::RegisterAccelerators.  The accelerator table maps
accelerators to menu commands (a list of pairs).  The function
generateAcceleratorTable stands for
accelerator_util::GenerateAcceleratorTable, which is repository code not
under src/ and is therefore modelled from the spec as an arbitrary function
of the menu model filling the just-cleared table.  The result is the new
accelerator_table_ and the new focus-manager registration list. -/
def RegisterAccelerators {M : Type} (generateAcceleratorTable : M → List (Nat × Nat))
    (self : Nat) (menu_model : M) (_accelerator_table : List (Nat × Nat))
    (fm : List RegisteredAccelerator) :
    List (Nat × Nat) × List RegisteredAccelerator :=
  let cleared : List (Nat × Nat) := []
  let fm0 := FocusManager.UnregisterAccelerators fm self
  let table1 := cleared ++ generateAcceleratorTable menu_model
  let fm1 := table1.foldl
    (fun acc entry =>
      FocusManager.RegisterAccelerator acc entry.1 AcceleratorPriority.normal self)
    fm0
  (table1, fm1)

theorem registerAll_eq (self : Nat) (entries : List (Nat × Nat)) :
    ∀ fm0 : List RegisteredAccelerator,
      entries.foldl
          (fun acc entry =>
            FocusManager.RegisterAccelerator acc entry.1 AcceleratorPriority.normal self)
          fm0 =
        fm0 ++ entries.map
          (fun entry =>
            (⟨entry.1, AcceleratorPriority.normal, self⟩ : RegisteredAccelerator)) := by
  induction entries with
  | nil =>
      intro fm0
      simp
  | cons e t ih =>
      intro fm0
      rw [List.foldl_cons, ih]
      simp [FocusManager.RegisterAccelerator]

/-- C4.  RegisterAccelerators clears the table and unregisters this window
from the focus manager, then regenerates the table from the menu model and
registers each entry with normal priority: afterwards the table equals the
generated table, the registrations targeting this window are exactly the
generated entries at normal priority, and registrations of other targets
are untouched. -/
theorem RegisterAccelerators_spec {M : Type}
    (generateAcceleratorTable : M → List (Nat × Nat)) (self : Nat) (menu_model : M)
    (old_table : List (Nat × Nat)) (fm : List RegisteredAccelerator) :
    (RegisterAccelerators generateAcceleratorTable self menu_model old_table fm).1 =
      generateAcceleratorTable menu_model ∧
    ((RegisterAccelerators generateAcceleratorTable self menu_model old_table fm).2.filter
        (fun r => r.target == self)) =
      (generateAcceleratorTable menu_model).map
        (fun entry => ⟨entry.1, AcceleratorPriority.normal, self⟩) ∧
    ((RegisterAccelerators generateAcceleratorTable self menu_model old_table fm).2.filter
        (fun r => r.target != self)) =
      fm.filter (fun r => r.target != self) := by
  unfold RegisterAccelerators FocusManager.UnregisterAccelerators
  refine ⟨by simp, ?_, ?_⟩
  · simp only [List.nil_append, registerAll_eq, List.filter_append]
    rw [List.filter_filter]
    simp [List.filter_map, Function.comp_def, bne, Bool.and_not_self,
      List.filter_false, List.filter_true]
  · simp only [List.nil_append, registerAll_eq, List.filter_append]
    rw [List.filter_filter]
    simp [List.filter_map, Function.comp_def, bne, Bool.and_self,
      List.filter_false, List.filter_true]

/-! ## C5/C10: window geometry -/

/-- The widget-level state read by the geometry getters:
Widget::GetWindowBoundsInScreen, Widget::GetRestoredBounds and
Widget::IsMinimized. -/
structure WidgetState where
  window_bounds_in_screen : GRect
  restored_bounds : GRect
  is_minimized : Bool
deriving DecidableEq, Repr

/-- The NativeWindowViews fields involved in the geometry operations.  The
flag is_win selects the OS_WIN build of the file (false for the X11
build). -/
structure GeomState where
  has_frame : Bool
  menu_bar_present : Bool
  menu_bar_visible : Bool
  widget : WidgetState
deriving DecidableEq, Repr

/-- NativeWindowViews::GetSize.  On Windows a minimized window reports the
size of its restored bounds; otherwise the size of
GetWindowBoundsInScreen. -/
def NativeWindowViews.GetSize (is_win : Bool) (s : GeomState) : GSize :=
  if is_win = true ∧ s.widget.is_minimized = true then
    s.widget.restored_bounds.size
  else
    s.widget.window_bounds_in_screen.size

/-- NativeWindowViews::GetPosition.  On Windows a minimized window reports
the origin of its restored bounds; otherwise the origin of
GetWindowBoundsInScreen. -/
def NativeWindowViews.GetPosition (is_win : Bool) (s : GeomState) : GPoint :=
  if is_win = true ∧ s.widget.is_minimized = true then
    s.widget.restored_bounds.origin
  else
    s.widget.window_bounds_in_screen.origin

/-- The delegation target the claim describes: the size of
window_->GetWindowBoundsInScreen(). -/
def GetSizeDelegation (s : GeomState) : GSize :=
  s.widget.window_bounds_in_screen.size

/-- The delegation target the claim describes: the origin of
window_->GetWindowBoundsInScreen(). -/
def GetPositionDelegation (s : GeomState) : GPoint :=
  s.widget.window_bounds_in_screen.origin

/-- C5 (counterexample).  On the Windows build, a minimized window whose
restored bounds differ from its screen bounds makes GetSize and GetPosition
return the restored geometry, not that of GetWindowBoundsInScreen. -/
theorem GetSize_delegation_counterexample :
    NativeWindowViews.GetSize true ⟨true, false, false, ⟨⟨0, 0, 800, 600⟩, ⟨10, 20, 400, 300⟩, true⟩⟩ ≠
      GetSizeDelegation ⟨true, false, false, ⟨⟨0, 0, 800, 600⟩, ⟨10, 20, 400, 300⟩, true⟩⟩ ∧
    NativeWindowViews.GetPosition true ⟨true, false, false, ⟨⟨0, 0, 800, 600⟩, ⟨10, 20, 400, 300⟩, true⟩⟩ ≠
      GetPositionDelegation ⟨true, false, false, ⟨⟨0, 0, 800, 600⟩, ⟨10, 20, 400, 300⟩, true⟩⟩ := by
  decide

/-- C5 (amended).  GetSize returns the size and GetPosition the origin of
window_->GetWindowBoundsInScreen(), except on the Windows build while the
window is minimized, where both report window_->GetRestoredBounds()
instead. -/
theorem GetSize_GetPosition_spec (is_win : Bool) (s : GeomState) :
    (¬(is_win = true ∧ s.widget.is_minimized = true) →
      NativeWindowViews.GetSize is_win s = GetSizeDelegation s ∧
      NativeWindowViews.GetPosition is_win s = GetPositionDelegation s) ∧
    (is_win = true → s.widget.is_minimized = true →
      NativeWindowViews.GetSize is_win s = s.widget.restored_bounds.size ∧
      NativeWindowViews.GetPosition is_win s = s.widget.restored_bounds.origin) := by
  unfold NativeWindowViews.GetSize NativeWindowViews.GetPosition GetSizeDelegation
    GetPositionDelegation
  split_ifs <;> simp_all

/-- C5 (witness): the amended theorem on the X11 build at a concrete
state. -/
theorem GetSize_GetPosition_spec_witness :
    NativeWindowViews.GetSize false ⟨true, false, false, ⟨⟨0, 0, 800, 600⟩, ⟨10, 20, 400, 300⟩, true⟩⟩ =
      GetSizeDelegation ⟨true, false, false, ⟨⟨0, 0, 800, 600⟩, ⟨10, 20, 400, 300⟩, true⟩⟩ ∧
    NativeWindowViews.GetPosition false ⟨true, false, false, ⟨⟨0, 0, 800, 600⟩, ⟨10, 20, 400, 300⟩, true⟩⟩ =
      GetPositionDelegation ⟨true, false, false, ⟨⟨0, 0, 800, 600⟩, ⟨10, 20, 400, 300⟩, true⟩⟩ := by
  exact (GetSize_GetPosition_spec false
      ⟨true, false, false, ⟨⟨0, 0, 800, 600⟩, ⟨10, 20, 400, 300⟩, true⟩⟩).1 (by simp)

/-! ## C10: content size vs window size -/

/-- kMenuBarHeight: 20 pixels on the Windows build, 25 otherwise. -/
def kMenuBarHeight (is_win : Bool) : Int := if is_win = true then 20 else 25

/-- views::Widget::SetBounds. -/
def Widget.SetBounds (s : GeomState) (bounds : GRect) : GeomState :=
  { s with widget := { s.widget with window_bounds_in_screen := bounds } }

/-- views::Widget::SetSize: resizes the widget, keeping its origin. -/
def Widget.SetSize (s : GeomState) (size : GSize) : GeomState :=
  Widget.SetBounds s
    ⟨s.widget.window_bounds_in_screen.x, s.widget.window_bounds_in_screen.y,
      size.width, size.height⟩

/-- NativeWindowViews::SetSize: delegates to window_->SetSize(size). -/
def NativeWindowViews.SetSize (s : GeomState) (size : GSize) : GeomState :=
  Widget.SetSize s size

/-- NativeWindowViews::ContentBoundsToWindowBounds.  The toolkit's
NonClientView::GetWindowBoundsForClientBounds is external to this file and
is passed as the function getWindowBoundsForClientBounds; when the menu bar
exists and is visible its height is added. -/
def ContentBoundsToWindowBounds (is_win : Bool)
    (getWindowBoundsForClientBounds : GRect → GRect) (s : GeomState)
    (bounds : GRect) : GRect :=
  let window_bounds := getWindowBoundsForClientBounds bounds
  if s.menu_bar_present = true ∧ s.menu_bar_visible = true then
    { window_bounds with height := window_bounds.height + kMenuBarHeight is_win }
  else window_bounds

/-- NativeWindowViews::SetContentSize: frameless windows just call
SetSize; framed windows resize the current window bounds to the requested
size and pass them through ContentBoundsToWindowBounds before
window_->SetBounds. -/
def NativeWindowViews.SetContentSize (is_win : Bool)
    (getWindowBoundsForClientBounds : GRect → GRect) (s : GeomState)
    (size : GSize) : GeomState :=
  if s.has_frame = false then NativeWindowViews.SetSize s size
  else
    Widget.SetBounds s
      (ContentBoundsToWindowBounds is_win getWindowBoundsForClientBounds s
        { s.widget.window_bounds_in_screen with width := size.width, height := size.height })

/-- NativeWindowViews::GetContentSize: frameless windows return GetSize;
framed windows take the frame view's client bounds (external, passed as
boundsForClientView) minus the menu-bar height when the menu bar is
visible. -/
def NativeWindowViews.GetContentSize (is_win : Bool) (boundsForClientView : GRect)
    (s : GeomState) : GSize :=
  if s.has_frame = false then NativeWindowViews.GetSize is_win s
  else
    let content_size := boundsForClientView.size
    if s.menu_bar_present = true ∧ s.menu_bar_visible = true then
      { content_size with height := content_size.height - kMenuBarHeight is_win }
    else content_size

/-- C10.  For a frameless window SetContentSize coincides with SetSize and
GetContentSize with GetSize, whatever the toolkit's frame-conversion
functions do; the ContentBoundsToWindowBounds conversion is applied only in
the framed case. -/
theorem ContentSize_frameless_spec (is_win : Bool)
    (getWindowBoundsForClientBounds : GRect → GRect) (boundsForClientView : GRect)
    (s : GeomState) (size : GSize) :
    (s.has_frame = false →
      NativeWindowViews.SetContentSize is_win getWindowBoundsForClientBounds s size =
        NativeWindowViews.SetSize s size ∧
      NativeWindowViews.GetContentSize is_win boundsForClientView s =
        NativeWindowViews.GetSize is_win s) ∧
    (s.has_frame = true →
      NativeWindowViews.SetContentSize is_win getWindowBoundsForClientBounds s size =
        Widget.SetBounds s
          (ContentBoundsToWindowBounds is_win getWindowBoundsForClientBounds s
            { s.widget.window_bounds_in_screen with
                width := size.width, height := size.height })) := by
  unfold NativeWindowViews.SetContentSize NativeWindowViews.GetContentSize
  split_ifs <;> simp_all

/-- C10 (witness): a frameless window at a concrete state. -/
theorem ContentSize_frameless_spec_witness :
    NativeWindowViews.SetContentSize false (fun r => r)
        ⟨false, false, false, ⟨⟨0, 0, 800, 600⟩, ⟨0, 0, 800, 600⟩, false⟩⟩ ⟨320, 240⟩ =
      NativeWindowViews.SetSize
        ⟨false, false, false, ⟨⟨0, 0, 800, 600⟩, ⟨0, 0, 800, 600⟩, false⟩⟩ ⟨320, 240⟩ ∧
    NativeWindowViews.GetContentSize false ⟨0, 0, 790, 570⟩
        ⟨false, false, false, ⟨⟨0, 0, 800, 600⟩, ⟨0, 0, 800, 600⟩, false⟩⟩ =
      NativeWindowViews.GetSize false
        ⟨false, false, false, ⟨⟨0, 0, 800, 600⟩, ⟨0, 0, 800, 600⟩, false⟩⟩ := by
  exact (ContentSize_frameless_spec false (fun r => r) ⟨0, 0, 790, 570⟩
      ⟨false, false, false, ⟨⟨0, 0, 800, 600⟩, ⟨0, 0, 800, 600⟩, false⟩⟩ ⟨320, 240⟩).1 rfl

/-! ## C6: Maximize / Unmaximize / Restore delegations -/

/-- Calls made on the owned views::Widget. -/
inductive WidgetCall where
  | maximize
  | restore
  | minimize
deriving DecidableEq, Repr

/-- A NativeWindowViews state split into the trace of calls made on
window_ and all remaining state (of arbitrary type, to express that a
delegation changes nothing else). -/
structure DelegState (α : Type) where
  widget_calls : List WidgetCall
  rest : α
deriving DecidableEq, Repr

/-- NativeWindowViews::Maximize: window_->Maximize(). -/
def NativeWindowViews.Maximize {α : Type} (s : DelegState α) : DelegState α :=
  { s with widget_calls := s.widget_calls ++ [WidgetCall.maximize] }

/-- NativeWindowViews::Unmaximize: window_->Restore(). -/
def NativeWindowViews.Unmaximize {α : Type} (s : DelegState α) : DelegState α :=
  { s with widget_calls := s.widget_calls ++ [WidgetCall.restore] }

/-- NativeWindowViews::Restore: window_->Restore(). -/
def NativeWindowViews.Restore {α : Type} (s : DelegState α) : DelegState α :=
  { s with widget_calls := s.widget_calls ++ [WidgetCall.restore] }

/-- C6.  Maximize only emits window_->Maximize() and leaves every other
part of the state untouched; Unmaximize and Restore are the same operation,
each consisting solely of window_->Restore(). -/
theorem Maximize_Unmaximize_Restore_delegation {α : Type} (s : DelegState α) :
    (NativeWindowViews.Maximize s).widget_calls = s.widget_calls ++ [WidgetCall.maximize] ∧
    (NativeWindowViews.Maximize s).rest = s.rest ∧
    NativeWindowViews.Unmaximize s = NativeWindowViews.Restore s ∧
    (NativeWindowViews.Restore s).widget_calls = s.widget_calls ++ [WidgetCall.restore] ∧
    (NativeWindowViews.Restore s).rest = s.rest :=
  ⟨rfl, rfl, rfl, rfl, rfl⟩

/-! ## C7: SetSkipTaskbar -/

/-- Success or failure of the two COM calls made by SetSkipTaskbar:
creating the ITaskbarList instance and its HrInit. -/
structure TaskbarComEnv where
  create_instance_succeeds : Bool
  hr_init_succeeds : Bool
deriving DecidableEq, Repr

/-- NativeWindowViews::SetSkipTaskbar (Windows build).  The taskbar is
modelled as the list of window handles having a tab; ITaskbarList is an OS
interface, its DeleteTab removing the window's tab and AddTab appending
it.  When creating the COM instance or HrInit fails the function returns
early. -/
def SetSkipTaskbar (env : TaskbarComEnv) (taskbar_tabs : List Nat) (hwnd : Nat)
    (skip : Bool) : List Nat :=
  if env.create_instance_succeeds = false ∨ env.hr_init_succeeds = false then taskbar_tabs
  else if skip = true then taskbar_tabs.filter (fun h => h != hwnd)
  else taskbar_tabs ++ [hwnd]

/-- C7.  On COM failure the taskbar state is unchanged; on success, skip
deletes the window's tab (the handle is gone afterwards) and not-skip adds
it back. -/
theorem SetSkipTaskbar_spec (env : TaskbarComEnv) (taskbar_tabs : List Nat)
    (hwnd : Nat) (skip : Bool) :
    ((env.create_instance_succeeds = false ∨ env.hr_init_succeeds = false) →
      SetSkipTaskbar env taskbar_tabs hwnd skip = taskbar_tabs) ∧
    (env.create_instance_succeeds = true → env.hr_init_succeeds = true →
      (skip = true →
        SetSkipTaskbar env taskbar_tabs hwnd skip =
          taskbar_tabs.filter (fun h => h != hwnd) ∧
        hwnd ∉ SetSkipTaskbar env taskbar_tabs hwnd skip) ∧
      (skip = false →
        SetSkipTaskbar env taskbar_tabs hwnd skip = taskbar_tabs ++ [hwnd] ∧
        hwnd ∈ SetSkipTaskbar env taskbar_tabs hwnd skip)) := by
  unfold SetSkipTaskbar
  split_ifs with h1 h2
  · exact ⟨fun _ => rfl, fun hc hh => by simp [hc, hh] at h1⟩
  · refine ⟨fun h => absurd h h1, fun hc hh => ⟨fun _ => ⟨rfl, ?_⟩, fun hs => by simp_all⟩⟩
    simp [List.mem_filter]
  · exact ⟨fun h => absurd h h1, fun hc hh => ⟨fun hs => by simp_all, fun _ => ⟨rfl, by simp⟩⟩⟩

/-- C7 (witness): a successful COM environment deleting the tab of handle
5 from the tab list [5, 7]. -/
theorem SetSkipTaskbar_spec_witness :
    SetSkipTaskbar ⟨true, true⟩ [5, 7] 5 true = [7] ∧
    5 ∉ SetSkipTaskbar ⟨true, true⟩ [5, 7] 5 true := by
  have h := ((SetSkipTaskbar_spec ⟨true, true⟩ [5, 7] 5 true).2 rfl rfl).1 rfl
  refine ⟨?_, h.2⟩
  rw [h.1]
  rfl

/-! ## C9: NativeWindowClientView::CanClose -/

/-- Calls made on the NativeWindowViews contents view by the client
view. -/
inductive NativeWindowCall where
  | closeWebContents
deriving DecidableEq, Repr

/-- The client view's picture of the window: the trace of calls it has
made on the window, and the window's remaining state. -/
structure ClientViewState (α : Type) where
  window_calls : List NativeWindowCall
  rest : α
deriving DecidableEq, Repr

/-- NativeWindowClientView::CanClose: calls CloseWebContents() on the
contents view and returns false. -/
def NativeWindowClientView.CanClose {α : Type} (s : ClientViewState α) :
    ClientViewState α × Bool :=
  ({ s with window_calls := s.window_calls ++ [NativeWindowCall.closeWebContents] }, false)

/-- C9.  CanClose always returns false, after invoking CloseWebContents()
on the window, and changes nothing else. -/
theorem CanClose_spec {α : Type} (s : ClientViewState α) :
    (NativeWindowClientView.CanClose s).2 = false ∧
    (NativeWindowClientView.CanClose s).1.window_calls =
      s.window_calls ++ [NativeWindowCall.closeWebContents] ∧
    (NativeWindowClientView.CanClose s).1.rest = s.rest :=
  ⟨rfl, rfl, rfl⟩
